import Mathlib

/-!
Verification development for the scrape-job orchestration subsystem of the
influencer-tracking backend.  The TypeScript sources are embedded shallowly:
JSON payloads become an inductive value type, JavaScript numbers are modelled
as rationals (plus an explicit NaN), asynchronous database code becomes
explicit state passing over lists of records, and fallible steps return
`Except` / optional error strings.
-/

/-- A JSON/JavaScript value as it flows through the webhook pipeline.
JavaScript numbers are modelled as rationals together with a separate NaN
marker (`JSNum` below); the payloads delivered by the provider are JSON, so
NaN never occurs inside a `JSValue`. -/
inductive JSValue where
  | undefined
  | null
  | bool (b : Bool)
  | num (q : Rat)
  | str (s : String)
  | arr (elems : List JSValue)
  | obj (fields : List (String × JSValue))

/-- A JavaScript number: either NaN or a rational value. -/
inductive JSNum where
  | nan
  | val (q : Rat)
deriving DecidableEq, Repr

/-- Property access `v[k]`: undefined on missing keys and non-objects. -/
def JSValue.get : JSValue → String → JSValue
  | .obj fs, k => match fs.lookup k with | some v => v | none => .undefined
  | _, _ => .undefined

/-- JavaScript truthiness (NaN cannot occur inside a JSON payload). -/
def JSValue.truthy : JSValue → Bool
  | .undefined => false
  | .null => false
  | .bool b => b
  | .num q => decide (q ≠ 0)
  | .str s => decide (s ≠ "")
  | .arr _ => true
  | .obj _ => true

/-- The JavaScript `a || b` operator. -/
def jsOr (a b : JSValue) : JSValue :=
  if a.truthy then a else b

/-- Decimal rendering of a rational, exact on integers; used for the
Mongoose string cast of numeric values. -/
def ratCastString (q : Rat) : String :=
  if q.den = 1 then toString q.num else toString q.num ++ "/" ++ toString q.den

/-- The Mongoose `String` cast applied when an untyped payload value is
stored into a string-typed field. -/
def jsCastString : JSValue → String
  | .str s => s
  | .num q => ratCastString q
  | .bool b => cond b "true" "false"
  | _ => ""

/-- First value of a `a || b || ... || ''` chain cast to a string, with the
empty-string default. -/
def strOrEmpty (v : JSValue) : String :=
  if v.truthy then jsCastString v else ""

/-- Digits of a decimal string, most significant first. -/
def digitsToNat (cs : List Char) : Nat :=
  cs.foldl (fun acc c => 10 * acc + (c.toNat - 48)) 0

/-- The JavaScript `parseFloat` restricted to strings made of digits and
dots (the only strings it is applied to, after the regex match below):
greedily reads `digits [. digits]` and yields NaN (`none`) when no digit is
read.  The result is kept as an exact decimal, a mantissa together with the
number of fraction digits, so the value read is `mantissa / 10 ^ fracLen`. -/
def parseFloatDec (s : String) : Option (Nat × Nat) :=
  let intDigits := s.data.takeWhile Char.isDigit
  let rest := s.data.drop intDigits.length
  match rest with
  | '.' :: rest2 =>
      let fracDigits := rest2.takeWhile Char.isDigit
      if intDigits.isEmpty && fracDigits.isEmpty then none
      else some (digitsToNat (intDigits ++ fracDigits), fracDigits.length)
  | _ =>
      if intDigits.isEmpty then none else some (digitsToNat intDigits, 0)

/-- Round-half-up division of naturals: the value of `Math.round (p / q)`
for a nonnegative argument (the regex admits no sign). -/
def roundDiv (p q : Nat) : Nat :=
  (2 * p + q) / (2 * q)

/-- JavaScript `Math.round (value * scale)` where `value` is the exact
decimal `m / 10 ^ e` read by `parseFloatDec`. -/
def decScaledRound (m e scale : Nat) : Nat :=
  roundDiv (m * scale) (10 ^ e)

/-- Whether a character may appear in the regex group `[\d.]+`. -/
def isNumBodyChar (c : Char) : Bool :=
  c.isDigit || c = '.'

/-- Split a trailing magnitude suffix `K/k/M/m/B/b` off a string, as the
regex `([\d.]+)([KkMmBb])?$` does. -/
def splitMagnitude (s : String) : String × Option Char :=
  match s.data.getLast? with
  | some c =>
      if c ∈ ['K', 'k', 'M', 'm', 'B', 'b'] then (String.mk s.data.dropLast, some c)
      else (s, none)
  | none => (s, none)

/-- Shared body of the two `parseNumber` variants: the value computed for a
string input when the regex `^([\d.]+)([KkMmBb])?$` matches. -/
def magnitudeValue (body : String) (suffix : Option Char) : JSNum :=
  match parseFloatDec body with
  | none => .nan
  | some (m, e) =>
      match suffix with
      | some c =>
          if c = 'k' ∨ c = 'K' then .val (decScaledRound m e 1000)
          else if c = 'm' ∨ c = 'M' then .val (decScaledRound m e 1000000)
          else .val (decScaledRound m e 1000000000)
      | none => .val (decScaledRound m e 1)

/-- Source `LinkedInScraper._parseNumber`: numbers pass through, strings matching
the magnitude regex are scaled and rounded, everything else yields 0. -/
def LinkedInScraper.parseNumber : JSValue → JSNum
  | .num q => .val q
  | .str s =>
      let (body, suffix) := splitMagnitude s
      if body ≠ "" ∧ body.data.all isNumBodyChar then magnitudeValue body suffix
      else .val 0
  | _ => .val 0

/-- Source `ProfileScraperService.parseNumber`: identical string handling, but the
fall-through default is `undefined` instead of 0. -/
def ProfileScraperService.parseNumber : JSValue → Option JSNum
  | .num q => some (.val q)
  | .str s =>
      let (body, suffix) := splitMagnitude s
      if body ≠ "" ∧ body.data.all isNumBodyChar then some (magnitudeValue body suffix)
      else none
  | _ => none

/-- The input type of `LinkedInScraper.parseDate`
(`string | Date | number | undefined`; `Date` never flows out of a JSON
payload). -/
inductive DateInput where
  | undefined
  | num (q : Rat)
  | str (s : String)

/-- Source `LinkedInScraper.parseDate`.  `now` is `Date.now()`; `dp` models the
JavaScript `new Date(string)` parser, `none` meaning an invalid date.
A falsy input (undefined, 0, empty string) yields the current time; a
number is kept as milliseconds when above the year-2000 threshold and
otherwise scaled from seconds. -/
def parseDate (now : Int) (dp : String → Option Int) : DateInput → Rat
  | .undefined => (now : Rat)
  | .num q =>
      if q = 0 then (now : Rat)
      else if q > 946684800000 then q else q * 1000
  | .str s =>
      if s = "" then (now : Rat)
      else match dp s with
        | some t => (t : Rat)
        | none => (now : Rat)

/-- Coerce an arbitrary payload field to the `parseDate` input domain.
Objects and arrays are not valid dates and take the invalid-date path. -/
def toDateInput : JSValue → DateInput
  | .num q => .num q
  | .str s => .str s
  | _ => .undefined

/-- UTF-8 bytes of a character. -/
def utf8Bytes (c : Char) : List Nat :=
  let n := c.toNat
  if n < 128 then [n]
  else if n < 2048 then [192 + n / 64, 128 + n % 64]
  else if n < 65536 then [224 + n / 4096, 128 + n / 64 % 64, 128 + n % 64]
  else [240 + n / 262144, 128 + n / 4096 % 64, 128 + n / 64 % 64, 128 + n % 64]

/-- The base64 alphabet. -/
def base64Alphabet : List Char :=
  "ABCDEFGHIJKLMNOPQRSTUVWXYZabcdefghijklmnopqrstuvwxyz0123456789+/".data

/-- Character of the base64 alphabet at an index. -/
def b64char (n : Nat) : Char :=
  base64Alphabet.getD n 'A'

/-- Standard base64 encoding of a byte list (`Buffer.toString('base64')`). -/
def base64Encode : List Nat → List Char
  | b1 :: b2 :: b3 :: rest =>
      let w := b1 * 65536 + b2 * 256 + b3
      b64char (w / 262144) :: b64char (w / 4096 % 64) :: b64char (w / 64 % 64) ::
        b64char (w % 64) :: base64Encode rest
  | [b1, b2] =>
      let w := b1 * 65536 + b2 * 256
      [b64char (w / 262144), b64char (w / 4096 % 64), b64char (w / 64 % 64), '=']
  | [b1] =>
      let w := b1 * 65536
      [b64char (w / 262144), b64char (w / 4096 % 64), '=', '=']
  | [] => []

/-- Source `LinkedInScraper.generateFallbackId`: base64 of the post URL (or of the
current timestamp rendered as a string), truncated to 32 characters and
tagged with a platform marker. -/
def generateFallbackId (now : Int) (post : JSValue) : String :=
  let src :=
    let v := jsOr (post.get "url") (post.get "post_url")
    if v.truthy then jsCastString v else toString now
  "linkedin_" ++ String.mk ((base64Encode ((src.data.map utf8Bytes).flatten)).take 32)

/-- Source `LinkedInScraper._parseMediaUrls`: collect an URL from a media
list entry (a string, or an object carrying `url` / `image_url`). -/
def mediaItemUrl (item : JSValue) : Option String :=
  match item with
  | .str s => some s
  | v =>
      if (v.get "url").truthy then some (jsCastString (v.get "url"))
      else if (v.get "image_url").truthy then some (jsCastString (v.get "image_url"))
      else none

/-- Media URLs of a post: the first truthy of
`images || media || media_urls || attachments || []` when it is an array,
followed by a string-typed `image_url` field. -/
def parseMediaUrls (post : JSValue) : List String :=
  let media := jsOr (post.get "images") (jsOr (post.get "media")
    (jsOr (post.get "media_urls") (jsOr (post.get "attachments") (.arr []))))
  let fromList :=
    match media with
    | .arr items => items.filterMap mediaItemUrl
    | _ => []
  let single :=
    match post.get "image_url" with
    | .str s => if s ≠ "" then [s] else []
    | _ => []
  fromList ++ single

/-- Normalized profile record produced by the adapter (the `ProfileData`
interface).  Fields whose `||` chain has no default are optional; a falsy
chain result is `none`. -/
structure ProfileData where
  name : String
  profileUrl : String
  avatarUrl : Option String
  platformUserId : Option String
  bio : Option String
  followerCount : JSNum
  verified : Bool
  location : String
deriving DecidableEq, Repr

/-- A truthy payload value cast to a string, or `none`. -/
def optStr (v : JSValue) : Option String :=
  if v.truthy then some (jsCastString v) else none

/-- Source `LinkedInScraper.parseProfileData`: tolerant multi-field-name
normalization of a raw provider profile payload. -/
def parseProfileData (payload : JSValue) : ProfileData :=
  { name := strOrEmpty (jsOr (payload.get "name")
      (jsOr (payload.get "full_name") (payload.get "title")))
    profileUrl := strOrEmpty (jsOr (payload.get "url")
      (jsOr (payload.get "profile_url") (payload.get "input_url")))
    avatarUrl := optStr (jsOr (payload.get "avatar") (jsOr (payload.get "profile_picture")
      (jsOr (payload.get "image_url") (payload.get "photo_url"))))
    platformUserId := optStr (jsOr (payload.get "profile_id")
      (jsOr (payload.get "user_id") (payload.get "linkedin_id")))
    bio := optStr (jsOr (payload.get "headline")
      (jsOr (payload.get "summary") (payload.get "about")))
    followerCount := LinkedInScraper.parseNumber (jsOr (payload.get "followers")
      (jsOr (payload.get "follower_count") (payload.get "connections")))
    verified := (payload.get "verified").truthy
    location := strOrEmpty (jsOr (payload.get "city") (payload.get "location")) }

/-- Normalized post record produced by the adapter (the `PostData`
interface, epoch-milliseconds variant). -/
structure PostData where
  platformPostId : String
  content : String
  postUrl : String
  likes : JSNum
  comments : JSNum
  shares : JSNum
  postedAt : Rat
  mediaUrls : List String
deriving DecidableEq, Repr

/-- Source `LinkedInScraper.parsePostData`: tolerant normalization of a raw
provider post payload; `now` and `dp` model the ambient clock and the
JavaScript date parser used by `parseDate`. -/
def parsePostData (now : Int) (dp : String → Option Int) (post : JSValue) : PostData :=
  { platformPostId :=
      let v := jsOr (post.get "post_id") (post.get "id")
      if v.truthy then jsCastString v else generateFallbackId now post
    content := strOrEmpty (post.get "post_text_html")
    postUrl := strOrEmpty (jsOr (post.get "url")
      (jsOr (post.get "post_url") (post.get "link")))
    likes := LinkedInScraper.parseNumber (jsOr (post.get "likes")
      (jsOr (post.get "reactions") (post.get "like_count")))
    comments := LinkedInScraper.parseNumber (jsOr (post.get "comments")
      (jsOr (post.get "num_comments") (post.get "comment_count")))
    shares := LinkedInScraper.parseNumber (jsOr (post.get "shares")
      (jsOr (post.get "reposts") (post.get "share_count")))
    postedAt := parseDate now dp (toDateInput (jsOr (post.get "posted_at")
      (jsOr (post.get "date_posted") (post.get "timestamp"))))
    mediaUrls := parseMediaUrls post }

/-- Supported social platforms (the `PlatformType` enum). -/
inductive PlatformType where
  | LinkedIn
  | X
  | YouTube
  | Instagram
deriving DecidableEq, Repr

/-- String value of a `PlatformType` member. -/
def PlatformType.str : PlatformType → String
  | .LinkedIn => "LinkedIn"
  | .X => "X"
  | .YouTube => "YouTube"
  | .Instagram => "Instagram"

/-- Scrap job kinds admitted by the `ScrapJobSchema` enum. -/
inductive JobType where
  | profile
  | posts
deriving DecidableEq, Repr

/-- Scrap job statuses admitted by the `ScrapJobSchema` enum. -/
inductive JobStatus where
  | pending
  | processing
  | completed
  | failed
deriving DecidableEq, Repr

/-- The `ScrapJobContext` carried by callers of the job ledger. -/
structure ScrapJobContext where
  organizationId : String
  userId : String
  influencerId : String
deriving DecidableEq, Repr

/-- The metadata object persisted on a scrap job row. -/
structure JobMetadata where
  handle : String
  platform : PlatformType
deriving DecidableEq, Repr

/-- A persisted ScrapJob row (the ledger entity of `ScrapJobModel`). -/
structure ScrapJob where
  jobId : String
  organizationId : String
  userId : String
  influencerId : String
  platform : PlatformType
  jobType : JobType
  status : JobStatus
  targetUrl : String
  metadata : JobMetadata
  startedAt : Int
  completedAt : Option Int
  errorMessage : Option String
deriving DecidableEq, Repr

/-- The input record of `ScrapperServiceBase.createScrapJob`. -/
structure CreateScrapJobInput where
  handle : String
  targetUrl : String
  jobType : JobType
  jobContext : ScrapJobContext
  platform : PlatformType
  status : JobStatus
deriving DecidableEq, Repr

/-- Source `ScrapperServiceBase.createScrapJob`: the ScrapJob row that is
persisted; the generated uuid and the current time are passed in. -/
def createScrapJob (jobId : String) (now : Int) (input : CreateScrapJobInput) : ScrapJob :=
  { jobId := jobId
    organizationId := input.jobContext.organizationId
    userId := input.jobContext.userId
    influencerId := input.jobContext.influencerId
    platform := PlatformType.LinkedIn
    jobType := input.jobType
    status := JobStatus.pending
    targetUrl := input.targetUrl
    metadata := { handle := input.handle, platform := input.platform }
    startedAt := now
    completedAt := none
    errorMessage := none }

/-- Whether `pat` occurs as a substring of `s` (JavaScript `includes`). -/
def containsSub (s pat : String) : Bool :=
  (s.splitOn pat).length ≥ 2

/-- Source `LinkedInScraper._buildProfileUrl`: strip a leading at-sign, keep
already-qualified URLs, otherwise build the canonical profile URL. -/
def buildProfileUrl (handle : String) : String :=
  let cleanHandle := if handle.startsWith "@" then handle.drop 1 else handle
  if containsSub cleanHandle "linkedin.com" then cleanHandle
  else "https://linkedin.com/in/" ++ cleanHandle

/-- The adapter instances the factory can produce (only LinkedIn is wired
up; the X case is commented out in the source). -/
inductive Scraper where
  | linkedIn
deriving DecidableEq, Repr

/-- Source `ScraperFactory.getScraper`: LinkedIn resolves to the LinkedIn
adapter, every other platform is a hard "unsupported platform" error.  The
per-platform instance cache does not affect the value returned. -/
def getScraper : PlatformType → Except String Scraper
  | .LinkedIn => .ok .linkedIn
  | p => .error ("Unsupported platform: " ++ p.str)

/-- A persisted Post row (`PostModel`, from the unnamed schema file: unique
index on `platformPostId`). -/
structure Post where
  influencerId : String
  content : String
  mediaUrls : List String
  postUrl : String
  likes : JSNum
  comments : JSNum
  shares : JSNum
  postedAt : Rat
  platformPostId : String
  createdAt : Int
deriving DecidableEq, Repr

/-- A persisted Influencer row, following `InfluencerSchema` (the variant
carrying the sync flags): identity, denormalized profile cache, the two
sync flags with their false defaults, the two sync timestamps and
`createdAt`.  `id` stands for the Mongo document id `_id`.  The schema has
no `location` path, so under Mongoose strict mode a `$set` on `location`
is silently dropped and the row carries no such field. -/
structure Influencer where
  id : String
  name : String
  platform : PlatformType
  handle : String
  userId : String
  organizationId : String
  platformUserId : Option String
  avatarUrl : Option String
  bio : Option String
  followerCount : Option JSNum
  verified : Bool
  lastProfileSync : Option Int
  isPostSyncing : Bool
  isProfileSyncing : Bool
  lastSyncAttempt : Option Int
  createdAt : Int
deriving DecidableEq, Repr

/-- The persistent state touched by the orchestration subsystem. -/
structure DB where
  influencers : List Influencer
  posts : List Post
  scrapJobs : List ScrapJob
deriving DecidableEq, Repr

/-- Source `LinkedInScraper.initScrapPosts`: fail fast without a configured
API token; otherwise build the profile URL, persist the scrap job (the
`createScrapJob` call is made with status `processing`), then make the
external trigger call, whose success is modelled by `triggerOk`. -/
def initScrapPosts (apiToken : String) (jobId : String) (now : Int)
    (handle : String) (jobContext : ScrapJobContext) (triggerOk : Bool)
    (db : DB) : DB × Except String Unit :=
  if apiToken = "" then
    (db, .error "Cannot scrape LinkedIn posts: API token not configured")
  else
    let profileUrl := buildProfileUrl handle
    let job := createScrapJob jobId now
      { handle := handle, targetUrl := profileUrl, jobType := JobType.posts,
        jobContext := jobContext, platform := PlatformType.LinkedIn,
        status := JobStatus.processing }
    let db1 := { db with scrapJobs := job :: db.scrapJobs }
    if triggerOk then (db1, .ok ()) else (db1, .error "trigger failed")

/-- The `ProfileUpdateData` interface of the profile sync service. -/
structure ProfileUpdateData where
  name : Option String
  avatarUrl : Option String
  platformUserId : Option String
  bio : Option String
  followerCount : Option JSNum
  verified : Option Bool
  location : Option String
deriving DecidableEq, Repr

/-- Truthiness-guarded field update used by `updateInfluencerProfile`
(`if (updateData.f) updateFields.f = updateData.f`). -/
def optFieldUpd (old new : Option String) : Option String :=
  match new with
  | some s => if s ≠ "" then some s else old
  | none => old

/-- Source `ProfileSyncService.updateInfluencerProfile`: copy only the
fields that carry values (strings must be truthy, `followerCount` and
`verified` only need to be defined) and stamp `lastProfileSync`.  The
source also writes a truthy `location` into the update, but the schema has
no `location` path, so Mongoose strict mode drops that write and the
stored row is unaffected by it. -/
def updateInfluencerProfile (now : Int) (u : ProfileUpdateData) (inf : Influencer) : Influencer :=
  { inf with
    name := match u.name with
      | some s => if s ≠ "" then s else inf.name
      | none => inf.name
    avatarUrl := optFieldUpd inf.avatarUrl u.avatarUrl
    platformUserId := optFieldUpd inf.platformUserId u.platformUserId
    bio := optFieldUpd inf.bio u.bio
    followerCount := match u.followerCount with
      | some n => some n
      | none => inf.followerCount
    verified := match u.verified with
      | some b => b
      | none => inf.verified
    lastProfileSync := some now }

/-- The `finally` block of `syncInfluencerProfile`: unconditionally reset
`isProfileSyncing` on the addressed influencer. -/
def clearProfileFlag (influencerId : String) (infs : List Influencer) : List Influencer :=
  infs.map (fun i => if i.id = influencerId then { i with isProfileSyncing := false } else i)

/-- Outcome of a `syncInfluencerProfile` call: the resulting influencer
store, the boolean return value, and whether the platform scrape step was
reached at all. -/
structure ProfileSyncOutcome where
  store : List Influencer
  returned : Bool
  scrapeAttempted : Bool
deriving DecidableEq, Repr

/-- Tail of `syncInfluencerProfile` after the platform scrape: apply the
update when data came back, then always run the `finally` reset. -/
def finishProfileSync (now : Int) (influencerId : String) :
    List Influencer × Option ProfileUpdateData → ProfileSyncOutcome
  | (s2, some u) =>
      ⟨clearProfileFlag influencerId
        (s2.map (fun i => if i.id = influencerId then updateInfluencerProfile now u i else i)),
       true, true⟩
  | (s2, none) => ⟨clearProfileFlag influencerId s2, false, true⟩

/-- Source `ProfileSyncService.syncInfluencerProfile`.  `scrapeX` and
`scrapeLinkedIn` model the external platform fetch steps (which may also
touch the store, as the X path does) returning the update data or `none`;
all thrown errors inside them are absorbed in the source.  The `finally`
reset of `isProfileSyncing` runs on every path, including the early returns
of the not-found and already-syncing guards. -/
def syncInfluencerProfile (now : Int)
    (scrapeX scrapeLinkedIn : Influencer → List Influencer → List Influencer × Option ProfileUpdateData)
    (influencerId : String) (infs : List Influencer) : ProfileSyncOutcome :=
  match infs.find? (fun i => i.id == influencerId) with
  | none => ⟨clearProfileFlag influencerId infs, false, false⟩
  | some inf =>
      if inf.isProfileSyncing then ⟨clearProfileFlag influencerId infs, false, false⟩
      else
        let s1 := infs.map (fun i =>
          if i.id = influencerId then
            { i with isProfileSyncing := true, lastSyncAttempt := some now }
          else i)
        match inf.platform with
        | .X => finishProfileSync now influencerId (scrapeX inf s1)
        | .LinkedIn => finishProfileSync now influencerId (scrapeLinkedIn inf s1)
        | _ => ⟨clearProfileFlag influencerId s1, false, false⟩

/-- The Post row inserted for an influencer from normalized post data. -/
def mkPost (now : Int) (influencerId : String) (d : PostData) : Post :=
  { influencerId := influencerId, content := d.content, mediaUrls := d.mediaUrls,
    postUrl := d.postUrl, likes := d.likes, comments := d.comments,
    shares := d.shares, postedAt := d.postedAt,
    platformPostId := d.platformPostId, createdAt := now }

/-- The Post row that storing a raw payload element produces. -/
def postOf (now : Int) (dp : String → Option Int) (influencerId : String)
    (v : JSValue) : Post :=
  mkPost now influencerId (parsePostData now dp v)

/-- In-place update of an existing Post row matching the incoming
`platformPostId`: overwrite the mutable fields (content, media, engagement
counters, postedAt), leave every other row unchanged. -/
def applyPostUpdate (d : PostData) (p : Post) : Post :=
  if p.platformPostId = d.platformPostId then
    { p with content := d.content, mediaUrls := d.mediaUrls, likes := d.likes,
             comments := d.comments, shares := d.shares, postedAt := d.postedAt }
  else p

/-- Modelled from the spec: `PostSyncService.syncScrapedPostData` is invoked
by the webhook result handler but its definition is not part of the
repository snapshot (only its callers are).  Following the spec: look up
the existing Post by `platformPostId`; if absent, insert a new Post for the
influencer; if present, update the mutable fields (content, media,
engagement counters, postedAt) in place. -/
def syncScrapedPostData (now : Int) (influencerId : String) (d : PostData)
    (posts : List Post) : List Post :=
  if posts.any (fun p => p.platformPostId == d.platformPostId) then
    posts.map (applyPostUpdate d)
  else
    mkPost now influencerId d :: posts

/-- Modelled from the spec: `ProfileSyncService.syncScrapedProfileData` is
invoked by the webhook result handler but its definition is not part of the
repository snapshot.  Following the spec: partial update overwriting only
the fields present in the incoming data, stamping `lastProfileSync`.  The
incoming location has no corresponding schema path on the stored row
(strict mode drops it), so it is not persisted. -/
def syncScrapedProfileData (now : Int) (influencerId : String) (d : ProfileData)
    (infs : List Influencer) : List Influencer :=
  infs.map (fun i =>
    if i.id = influencerId then
      { i with
        name := if d.name ≠ "" then d.name else i.name
        avatarUrl := match d.avatarUrl with | some s => some s | none => i.avatarUrl
        platformUserId := match d.platformUserId with | some s => some s | none => i.platformUserId
        bio := match d.bio with | some s => some s | none => i.bio
        followerCount := some d.followerCount
        verified := d.verified
        lastProfileSync := some now }
    else i)

/-- Shape of the profile sync-service call made by the result handler: it
may update the state and may fail with a thrown error message. -/
def SyncProfileFn : Type :=
  String → ProfileData → DB → DB × Option String

/-- Shape of the post sync-service call made by the result handler. -/
def SyncPostFn : Type :=
  String → PostData → DB → DB × Option String

/-- The non-failing instantiation of the profile sync call, writing through
`syncScrapedProfileData`. -/
def syncProfileStd (now : Int) : SyncProfileFn :=
  fun influencerId d db =>
    ({ db with influencers := syncScrapedProfileData now influencerId d db.influencers }, none)

/-- The non-failing instantiation of the post sync call, writing through
`syncScrapedPostData`. -/
def syncPostStd (now : Int) : SyncPostFn :=
  fun influencerId d db =>
    ({ db with posts := syncScrapedPostData now influencerId d db.posts }, none)

/-- Elements visited by the `for (let i = 0; i < payload.length; i++)` loop
of the profile branch: array elements, the characters of a string, and
nothing for values whose `length` is undefined. -/
def indexable : JSValue → List JSValue
  | .arr xs => xs
  | .str s => s.data.map (fun c => .str (String.mk [c]))
  | _ => []

/-- Profile branch loop of `ScrapperWebhookHandler.handleWebhook`: parse and
sync each element, stopping at the first thrown error. -/
def runProfileLoop (sp : SyncProfileFn) (influencerId : String) :
    List JSValue → DB → DB × Option String
  | [], db => (db, none)
  | el :: rest, db =>
      match sp influencerId (parseProfileData el) db with
      | (db1, none) => runProfileLoop sp influencerId rest db1
      | (db1, some m) => (db1, some m)

/-- Inner loop of the posts branch: sync every post of a nested array. -/
def runPostsInner (spo : SyncPostFn) (now : Int) (dp : String → Option Int)
    (influencerId : String) : List JSValue → DB → DB × Option String
  | [], db => (db, none)
  | post :: rest, db =>
      match spo influencerId (parsePostData now dp post) db with
      | (db1, none) => runPostsInner spo now dp influencerId rest db1
      | (db1, some m) => (db1, some m)

/-- Outer loop of the posts branch: an array item is either itself an array
of posts (processed element-wise) or a single post object. -/
def runPostsOuter (spo : SyncPostFn) (now : Int) (dp : String → Option Int)
    (influencerId : String) : List JSValue → DB → DB × Option String
  | [], db => (db, none)
  | item :: rest, db =>
      match item with
      | .arr inner =>
          match runPostsInner spo now dp influencerId inner db with
          | (db1, none) => runPostsOuter spo now dp influencerId rest db1
          | (db1, some m) => (db1, some m)
      | v =>
          match spo influencerId (parsePostData now dp v) db with
          | (db1, none) => runPostsOuter spo now dp influencerId rest db1
          | (db1, some m) => (db1, some m)

/-- Posts branch of `ScrapperWebhookHandler.handleWebhook`: a non-array
payload is treated as a single post, an array is walked with one level of
nested arrays flattened. -/
def runPostsBranch (spo : SyncPostFn) (now : Int) (dp : String → Option Int)
    (influencerId : String) (payload : JSValue) (db : DB) : DB × Option String :=
  match payload with
  | .arr items => runPostsOuter spo now dp influencerId items db
  | v => spo influencerId (parsePostData now dp v) db

/-- The try-block body of `ScrapperWebhookHandler.handleWebhook` after the
job lookup: adapter resolution then the jobType branch; the returned state
carries all writes performed before a thrown error. -/
def handleWebhookTry (sp : SyncProfileFn) (spo : SyncPostFn) (now : Int)
    (dp : String → Option Int) (job : ScrapJob) (payload : JSValue) (db : DB) :
    DB × Option String :=
  match getScraper job.platform with
  | .error m => (db, some m)
  | .ok scr =>
      match scr with
      | .linkedIn =>
          match job.jobType with
          | .profile => runProfileLoop sp job.influencerId (indexable payload) db
          | .posts => runPostsBranch spo now dp job.influencerId payload db

/-- Persist a mutation of the job document found by the handler
(`scrapJob.save()`), addressed by its unique `jobId`. -/
def markJob (jobId : String) (f : ScrapJob → ScrapJob) (jobs : List ScrapJob) : List ScrapJob :=
  jobs.map (fun j => if j.jobId = jobId then f j else j)

/-- The success finalization of a job: `completedAt` stamped, status
completed. -/
def completeJob (now : Int) (j : ScrapJob) : ScrapJob :=
  { j with completedAt := some now, status := JobStatus.completed }

/-- The failure finalization of a job: status failed with the thrown
message recorded. -/
def failJob (m : String) (j : ScrapJob) : ScrapJob :=
  { j with status := JobStatus.failed, errorMessage := some m }

/-- Source `ScrapperWebhookHandler.handleWebhook`: look up the scrap job
(silently dropping unknown job ids), run the try block, then finalize the
job as completed, or as failed with the thrown message — the catch block
never rethrows, so the function always returns a state normally. -/
def handleWebhook (sp : SyncProfileFn) (spo : SyncPostFn) (now : Int)
    (dp : String → Option Int) (jobId : String) (payload : JSValue) (db : DB) : DB :=
  match db.scrapJobs.find? (fun j => j.jobId == jobId) with
  | none => db
  | some job =>
      match handleWebhookTry sp spo now dp job payload db with
      | (db1, none) =>
          { db1 with scrapJobs := markJob jobId (completeJob now) db1.scrapJobs }
      | (db1, some m) =>
          { db1 with scrapJobs := markJob jobId (failJob m) db1.scrapJobs }

/-- Source `webhook.js`, POST `/scrap-webhook`: the message published onto
the topic is the serialized request body itself (an absent or falsy body
becomes the empty object) — nothing is wrapped around it. -/
def relayPublishPost (body : JSValue) : JSValue :=
  if body.truthy then body else .obj []

/-- Modelled from the spec (refinement target): the queue message envelope
the spec describes, params with the job id alongside the provider body. -/
def queueEnvelopeSpec (jobId : String) (body : JSValue) : JSValue :=
  .obj [("params", .obj [("jobId", .str jobId)]), ("body", body)]

/-- Source `ScrapWebhookPubsubConsumer.handleMessage`: read `params.jobId`
and `body` out of the parsed message and hand them to `handleWebhook`.
Accessing `.jobId` on an undefined or null `params` throws, and the catch
swallows the error, dropping the message — modelled as `none`. -/
def consumerHandleMessage (m : JSValue) : Option (JSValue × JSValue) :=
  match m.get "params" with
  | .undefined => none
  | .null => none
  | p => some (p.get "jobId", m.get "body")

/-- Profile sync-service stub performing no writes and never failing. -/
def syncProfileNoop : SyncProfileFn :=
  fun _ _ db => (db, none)

/-- Post sync-service stub performing no writes and never failing. -/
def syncPostNoop : SyncPostFn :=
  fun _ _ db => (db, none)

/-- An empty database state. -/
def dbEmpty : DB :=
  ⟨[], [], []⟩

/-- A concrete job context. -/
def ctx1 : ScrapJobContext :=
  ⟨"org-1", "user-1", "inf-1"⟩

/-- A concrete posts-type LinkedIn scrap job. -/
def jobPostsLI : ScrapJob :=
  { jobId := "job-1", organizationId := "org-1", userId := "user-1",
    influencerId := "inf-1", platform := PlatformType.LinkedIn,
    jobType := JobType.posts, status := JobStatus.pending, targetUrl := "",
    metadata := ⟨"jdoe", PlatformType.LinkedIn⟩, startedAt := 0,
    completedAt := none, errorMessage := none }

/-- A concrete scrap job whose platform field holds X, for which adapter
resolution fails. -/
def jobOnX : ScrapJob :=
  { jobPostsLI with jobId := "job-x", platform := PlatformType.X }

/-- Concrete raw post payload elements with distinct provider post ids. -/
def postObjA : JSValue :=
  .obj [("post_id", .str "pa"), ("url", .str "https://l.in/pa")]

/-- Second concrete raw post payload element. -/
def postObjB : JSValue :=
  .obj [("post_id", .str "pb")]

/-- Third concrete raw post payload element. -/
def postObjC : JSValue :=
  .obj [("post_id", .str "pc")]

/-- A concrete influencer whose profile sync flag is raised. -/
def infSyncing : Influencer :=
  { id := "inf-1", name := "J", platform := PlatformType.LinkedIn,
    handle := "jdoe", userId := "user-1", organizationId := "org-1",
    platformUserId := none, avatarUrl := none, bio := none,
    followerCount := none, verified := false, lastProfileSync := none,
    isPostSyncing := false, isProfileSyncing := true,
    lastSyncAttempt := none, createdAt := 0 }

/-- A concrete normalized post record. -/
def postD1 : PostData :=
  { platformPostId := "p1", content := "hello", postUrl := "https://l.in/p1",
    likes := .val 1200, comments := .val 3, shares := .val 0,
    postedAt := 1700000000000, mediaUrls := [] }

/-- A concrete provider webhook body: a one-element array of post objects. -/
def bodyB0 : JSValue :=
  .arr [.obj [("post_id", .str "p1")]]

/-- C8: the adapter numeric parser maps "1.2K" to 1200, "5.3M" to 5300000,
"2B" to 2000000000 and a plain number 42 to itself, and an undefined input
yields the defined default of each variant: 0 for the adapter variant and
undefined for the profile-scraper variant (which agrees with the adapter on
all the parsed values). -/
theorem parseNumber_tolerant_values :
    LinkedInScraper.parseNumber (.str "1.2K") = .val 1200 ∧
    LinkedInScraper.parseNumber (.str "5.3M") = .val 5300000 ∧
    LinkedInScraper.parseNumber (.str "2B") = .val 2000000000 ∧
    LinkedInScraper.parseNumber (.num 42) = .val 42 ∧
    LinkedInScraper.parseNumber .undefined = .val 0 ∧
    ProfileScraperService.parseNumber (.str "1.2K") = some (.val 1200) ∧
    ProfileScraperService.parseNumber (.str "5.3M") = some (.val 5300000) ∧
    ProfileScraperService.parseNumber (.str "2B") = some (.val 2000000000) ∧
    ProfileScraperService.parseNumber (.num 42) = some (.val 42) ∧
    ProfileScraperService.parseNumber .undefined = none := by
  decide

/-- C9, counterexample: the claim asserts that every numeric posted-at value
`v` not above the year-2000 threshold is normalized to `v * 1000`, but at
the numeric input 0 (falsy in JavaScript) the code returns the current time
instead of `0 * 1000`. -/
theorem parseDate_zero_yields_now :
    parseDate 1700000000000 (fun _ => none) (.num 0) = 1700000000000 ∧
    ¬ parseDate 1700000000000 (fun _ => none) (.num 0) = (0 : Rat) * 1000 := by
  constructor
  · decide
  · intro h
    rw [show ((0 : Rat) * 1000 = 0) from by norm_num] at h
    exact absurd h (by decide)

/-- C9 (amended): for every nonzero numeric input `v` the normalized
posted-at value is `v` when `v` is above the year-2000 threshold
946684800000 and `v * 1000` otherwise; a missing value, an unparseable
string, and the falsy numeric input 0 all yield the current time. -/
theorem parseDate_threshold_normalization (now : Int) (dp : String → Option Int) :
    (∀ v : Rat, v ≠ 0 →
      parseDate now dp (.num v) = if v > 946684800000 then v else v * 1000) ∧
    parseDate now dp .undefined = (now : Rat) ∧
    parseDate now dp (.num 0) = (now : Rat) ∧
    (∀ s : String, dp s = none → parseDate now dp (.str s) = (now : Rat)) := by
  refine ⟨?_, rfl, by simp [parseDate], ?_⟩
  · intro v hv
    simp [parseDate, hv]
  · intro s hs
    by_cases h : s = "" <;> simp [parseDate, h, hs]

/-- C9 witness: the amended normalization at concrete inputs. -/
theorem parseDate_threshold_normalization_witness :
    parseDate 5 (fun _ => none) (.num 3) = 3 * 1000 ∧
    parseDate 5 (fun _ => none) .undefined = (5 : Rat) ∧
    parseDate 5 (fun _ => none) (.str "zzz") = (5 : Rat) := by
  have h := parseDate_threshold_normalization 5 (fun _ => none)
  refine ⟨?_, h.2.1, h.2.2.2 "zzz" rfl⟩
  have h3 := h.1 3 (by norm_num)
  rw [if_neg (by norm_num)] at h3
  exact h3

/-- C2: contrary to the claim, the ScrapJob row persisted by
`createScrapJob` always carries status pending — the status argument, which
`initScrapPosts` fills with processing, is ignored — so after a posts sync
is initiated the ledger row is a posts job in status pending, and no code
path ever writes processing. -/
theorem createScrapJob_persists_pending :
    ∀ (apiToken jobId handle : String) (now : Int) (ctx : ScrapJobContext)
      (ok : Bool) (db : DB) (input : CreateScrapJobInput),
      (createScrapJob jobId now input).status = JobStatus.pending ∧
      (apiToken ≠ "" →
        ((initScrapPosts apiToken jobId now handle ctx ok db).1.scrapJobs.head?).map
            ScrapJob.status = some JobStatus.pending ∧
        ((initScrapPosts apiToken jobId now handle ctx ok db).1.scrapJobs.head?).map
            ScrapJob.jobType = some JobType.posts) := by
  intro apiToken jobId handle now ctx ok db input
  refine ⟨rfl, fun h => ?_⟩
  cases ok <;> simp [initScrapPosts, h, createScrapJob]

/-- C2 witness: a concrete posts-sync initiation whose `createScrapJob`
call site passes status processing, evaluated to a pending row. -/
theorem createScrapJob_persists_pending_witness :
    (createScrapJob "job-1" 0
      ⟨"jdoe", "https://linkedin.com/in/jdoe", JobType.posts, ctx1,
        PlatformType.LinkedIn, JobStatus.processing⟩).status = JobStatus.pending ∧
    ((initScrapPosts "tok" "job-1" 0 "jdoe" ctx1 true dbEmpty).1.scrapJobs.head?).map
        ScrapJob.status = some JobStatus.pending := by
  have h := createScrapJob_persists_pending "tok" "job-1" "jdoe" 0 ctx1 true dbEmpty
    ⟨"jdoe", "https://linkedin.com/in/jdoe", JobType.posts, ctx1,
      PlatformType.LinkedIn, JobStatus.processing⟩
  exact ⟨h.1, (h.2 (by decide)).1⟩

/-- C10: every persisted ScrapJob row has platform LinkedIn regardless of
the platform argument, which is recorded only inside the metadata; hence
adapter resolution from the persisted platform always yields the LinkedIn
adapter. -/
theorem createScrapJob_platform_always_linkedIn :
    ∀ (jobId : String) (now : Int) (input : CreateScrapJobInput),
      (createScrapJob jobId now input).platform = PlatformType.LinkedIn ∧
      (createScrapJob jobId now input).metadata.platform = input.platform ∧
      getScraper (createScrapJob jobId now input).platform = Except.ok Scraper.linkedIn := by
  intro jobId now input
  exact ⟨rfl, rfl, rfl⟩

/-- C7: the relay publishes the bare provider body — not the
params-and-body envelope the consumer unwraps — so the consumer, which does
correctly unwrap that envelope when it is present, drops every message the
relay of `webhook.js` produces. -/
theorem relay_message_format_mismatch :
    relayPublishPost bodyB0 = bodyB0 ∧
    consumerHandleMessage (relayPublishPost bodyB0) = none ∧
    relayPublishPost bodyB0 ≠ queueEnvelopeSpec "job-1" bodyB0 ∧
    consumerHandleMessage (queueEnvelopeSpec "job-1" bodyB0) =
      some (.str "job-1", bodyB0) := by
  refine ⟨rfl, rfl, ?_, rfl⟩
  intro h
  exact JSValue.noConfusion h

/-- C5 (amended): invoking the profile sync entry point while
`isProfileSyncing` is raised fails (returns the failure result) without
reaching the platform scrape step — but the `finally` block still runs, so
after the call the influencer's flag is false, not left raised as the claim
states. -/
theorem syncInfluencerProfile_guard_refuses_and_clears :
    ∀ (now : Int)
      (sx sl : Influencer → List Influencer → List Influencer × Option ProfileUpdateData)
      (influencerId : String) (infs : List Influencer) (inf : Influencer),
      infs.find? (fun i => i.id == influencerId) = some inf →
      inf.isProfileSyncing = true →
      (syncInfluencerProfile now sx sl influencerId infs).returned = false ∧
      (syncInfluencerProfile now sx sl influencerId infs).scrapeAttempted = false ∧
      ∀ i ∈ (syncInfluencerProfile now sx sl influencerId infs).store,
        i.id = influencerId → i.isProfileSyncing = false := by
  intro now sx sl influencerId infs inf hfind hflag
  unfold syncInfluencerProfile
  simp only [hfind, hflag, if_true]
  refine ⟨by trivial, by trivial, ?_⟩
  intro i hi hid
  simp only [clearProfileFlag, List.mem_map] at hi
  obtain ⟨j, hj, rfl⟩ := hi
  by_cases hj2 : j.id = influencerId
  · simp [hj2]
  · rw [if_neg hj2] at hid ⊢
    exact absurd hid hj2

/-- C5, counterexample: with a single influencer whose flag is raised, the
guarded call leaves the flag false — refuting the claim that the flag stays
true after the call returns. -/
theorem syncInfluencerProfile_guard_flag_cleared :
    (syncInfluencerProfile 0 (fun _ s => (s, none)) (fun _ s => (s, none))
        "inf-1" [infSyncing]).store.map Influencer.isProfileSyncing = [false] ∧
    ¬ (syncInfluencerProfile 0 (fun _ s => (s, none)) (fun _ s => (s, none))
        "inf-1" [infSyncing]).store.map Influencer.isProfileSyncing = [true] := by
  decide

/-- C5 witness: the amended guard behavior at a concrete influencer. -/
theorem syncInfluencerProfile_guard_refuses_and_clears_witness :
    (syncInfluencerProfile 1 (fun _ s => (s, none)) (fun _ s => (s, none))
        "inf-1" [infSyncing]).returned = false ∧
    (syncInfluencerProfile 1 (fun _ s => (s, none)) (fun _ s => (s, none))
        "inf-1" [infSyncing]).scrapeAttempted = false := by
  have h := syncInfluencerProfile_guard_refuses_and_clears 1
    (fun _ s => (s, none)) (fun _ s => (s, none)) "inf-1" [infSyncing] infSyncing
    (by decide) (by decide)
  exact ⟨h.1, h.2.1⟩

/-- C4: a webhook delivery for a job id with no matching ScrapJob row
returns normally and mutates nothing — the state is returned unchanged. -/
theorem handleWebhook_unknown_job_is_noop :
    ∀ (sp : SyncProfileFn) (spo : SyncPostFn) (now : Int) (dp : String → Option Int)
      (jobId : String) (payload : JSValue) (db : DB),
      (∀ j ∈ db.scrapJobs, j.jobId ≠ jobId) →
      handleWebhook sp spo now dp jobId payload db = db := by
  intro sp spo now dp jobId payload db h
  unfold handleWebhook
  have hf : db.scrapJobs.find? (fun j => j.jobId == jobId) = none := by
    rw [List.find?_eq_none]
    intro j hj
    simpa using h j hj
  rw [hf]

/-- C4 witness: an unknown job id on an empty state. -/
theorem handleWebhook_unknown_job_is_noop_witness :
    handleWebhook syncProfileNoop syncPostNoop 0 (fun _ => none) "missing"
      (.obj []) dbEmpty = dbEmpty := by
  exact handleWebhook_unknown_job_is_noop _ _ _ _ _ _ _
    (by intro j hj; simp [dbEmpty] at hj)

/-- C3: when the try block of the result handler throws with message `m`
— during adapter resolution, payload parsing, or a sync call — the handler
returns normally (it never rethrows) with the job saved as failed and its
error message set to `m`, on top of whatever writes happened before the
error. -/
theorem handleWebhook_error_marks_failed :
    ∀ (sp : SyncProfileFn) (spo : SyncPostFn) (now : Int) (dp : String → Option Int)
      (jobId : String) (payload : JSValue) (db db1 : DB) (job : ScrapJob) (m : String),
      db.scrapJobs.find? (fun j => j.jobId == jobId) = some job →
      handleWebhookTry sp spo now dp job payload db = (db1, some m) →
      handleWebhook sp spo now dp jobId payload db =
        { db1 with scrapJobs := markJob jobId (failJob m) db1.scrapJobs } ∧
      ∀ j ∈ (handleWebhook sp spo now dp jobId payload db).scrapJobs,
        j.jobId = jobId → j.status = JobStatus.failed ∧ j.errorMessage = some m := by
  intro sp spo now dp jobId payload db db1 job m hfind htry
  have heq : handleWebhook sp spo now dp jobId payload db =
      { db1 with scrapJobs := markJob jobId (failJob m) db1.scrapJobs } := by
    unfold handleWebhook
    simp only [hfind, htry]
  refine ⟨heq, ?_⟩
  rw [heq]
  intro j hj hid
  simp only [markJob, List.mem_map] at hj
  obtain ⟨j0, hj0, rfl⟩ := hj
  by_cases h0 : j0.jobId = jobId
  · simp [h0, failJob]
  · rw [if_neg h0] at hid ⊢
    exact absurd hid h0

/-- C3 witness: a job stored with platform X makes adapter resolution
throw; the handler returns normally with the job marked failed and the
thrown message recorded. -/
theorem handleWebhook_error_marks_failed_witness :
    handleWebhook syncProfileNoop syncPostNoop 0 (fun _ => none) "job-x" (.obj [])
        ⟨[], [], [jobOnX]⟩ =
      ⟨[], [], [failJob "Unsupported platform: X" jobOnX]⟩ := by
  have h := handleWebhook_error_marks_failed syncProfileNoop syncPostNoop 0 (fun _ => none)
    "job-x" (.obj []) ⟨[], [], [jobOnX]⟩ ⟨[], [], [jobOnX]⟩ jobOnX "Unsupported platform: X"
    (by decide) (by decide)
  rw [h.1]
  decide

/-- An update keyed on `platformPostId` never changes that key. -/
theorem applyPostUpdate_platformPostId (d : PostData) (p : Post) :
    (applyPostUpdate d p).platformPostId = p.platformPostId := by
  unfold applyPostUpdate
  split <;> rfl

/-- Applying the same keyed update twice is the same as applying it once. -/
theorem applyPostUpdate_idem (d : PostData) (p : Post) :
    applyPostUpdate d (applyPostUpdate d p) = applyPostUpdate d p := by
  unfold applyPostUpdate
  by_cases h : p.platformPostId = d.platformPostId <;> simp [h]

/-- A row with a different key is untouched by the update. -/
theorem applyPostUpdate_eq_self (d : PostData) (p : Post)
    (h : p.platformPostId ≠ d.platformPostId) : applyPostUpdate d p = p := by
  unfold applyPostUpdate
  rw [if_neg h]

/-- The freshly inserted row is a fixed point of the update built from the
same data. -/
theorem applyPostUpdate_mkPost (now : Int) (influencerId : String) (d : PostData) :
    applyPostUpdate d (mkPost now influencerId d) = mkPost now influencerId d := by
  unfold applyPostUpdate mkPost
  simp

/-- Reconciling the same post data twice leaves the store exactly as after
reconciling it once. -/
theorem syncScrapedPostData_idem (n n' : Int) (influencerId : String) (d : PostData)
    (posts : List Post) :
    syncScrapedPostData n' influencerId d (syncScrapedPostData n influencerId d posts) =
      syncScrapedPostData n influencerId d posts := by
  unfold syncScrapedPostData
  by_cases hany : posts.any (fun p => p.platformPostId == d.platformPostId)
  · rw [if_pos hany]
    have hcomp : ((fun p : Post => p.platformPostId == d.platformPostId) ∘ applyPostUpdate d)
        = (fun p : Post => p.platformPostId == d.platformPostId) := by
      funext p
      simp [Function.comp, applyPostUpdate_platformPostId]
    have hany2 : (posts.map (applyPostUpdate d)).any
        (fun p => p.platformPostId == d.platformPostId) = true := by
      rw [List.any_map, hcomp]
      exact hany
    rw [if_pos hany2, List.map_map]
    exact List.map_congr_left (fun p _ => applyPostUpdate_idem d p)
  · rw [if_neg hany]
    have hf : posts.any (fun p => p.platformPostId == d.platformPostId) = false :=
      Bool.eq_false_iff.mpr hany
    have hmem : ∀ p ∈ posts, p.platformPostId ≠ d.platformPostId := by
      intro p hp
      simpa using List.any_eq_false.mp hf p hp
    have hconsany : (mkPost n influencerId d :: posts).any
        (fun p => p.platformPostId == d.platformPostId) = true := by
      simp [List.any_cons, mkPost]
    rw [if_pos hconsany, List.map_cons, applyPostUpdate_mkPost]
    congr 1
    calc posts.map (applyPostUpdate d)
        = posts.map id := List.map_congr_left (fun p hp => applyPostUpdate_eq_self d p (hmem p hp))
      _ = posts := List.map_id posts

/-- Under the unique-index invariant, a store that contains the key at all
contains it exactly once. -/
theorem countP_key_eq_one (d : PostData) :
    ∀ posts : List Post,
      posts.Pairwise (fun p q => p.platformPostId ≠ q.platformPostId) →
      posts.any (fun p => p.platformPostId == d.platformPostId) = true →
      posts.countP (fun p => p.platformPostId == d.platformPostId) = 1 := by
  intro posts
  induction posts with
  | nil =>
      intro _ h
      simp at h
  | cons p l ih =>
      intro hpw hany
      rw [List.pairwise_cons] at hpw
      by_cases hp : p.platformPostId = d.platformPostId
      · have hl0 : l.countP (fun q => q.platformPostId == d.platformPostId) = 0 := by
          rw [List.countP_eq_zero]
          intro q hq
          simp only [beq_iff_eq]
          rw [← hp]
          exact fun he => hpw.1 q hq he.symm
        rw [List.countP_cons]
        simp [hl0, hp]
      · have hany2 : l.any (fun q => q.platformPostId == d.platformPostId) = true := by
          rw [List.any_cons] at hany
          simpa [hp] using hany
        rw [List.countP_cons]
        simp [hp, ih hpw.2 hany2]

/-- C6: reconciling a scraped post twice with the same payload (same
`platformPostId`) leaves the store identical to reconciling it once, and
— on a store satisfying the unique-index invariant on `platformPostId` —
exactly one Post row carries that id afterwards. -/
theorem syncScrapedPostData_idempotent_upsert :
    ∀ (n n' : Int) (influencerId : String) (d : PostData) (posts : List Post),
      posts.Pairwise (fun p q => p.platformPostId ≠ q.platformPostId) →
      syncScrapedPostData n' influencerId d (syncScrapedPostData n influencerId d posts) =
        syncScrapedPostData n influencerId d posts ∧
      (syncScrapedPostData n influencerId d posts).countP
          (fun p => p.platformPostId == d.platformPostId) = 1 := by
  intro n n' influencerId d posts hpw
  refine ⟨syncScrapedPostData_idem n n' influencerId d posts, ?_⟩
  unfold syncScrapedPostData
  by_cases hany : posts.any (fun p => p.platformPostId == d.platformPostId)
  · rw [if_pos hany, List.countP_map]
    have hcomp : ((fun p : Post => p.platformPostId == d.platformPostId) ∘ applyPostUpdate d)
        = (fun p : Post => p.platformPostId == d.platformPostId) := by
      funext p
      simp [Function.comp, applyPostUpdate_platformPostId]
    rw [hcomp]
    exact countP_key_eq_one d posts hpw hany
  · rw [if_neg hany]
    have hf : posts.any (fun p => p.platformPostId == d.platformPostId) = false :=
      Bool.eq_false_iff.mpr hany
    have hl0 : posts.countP (fun p => p.platformPostId == d.platformPostId) = 0 := by
      rw [List.countP_eq_zero]
      intro q hq
      exact List.any_eq_false.mp hf q hq
    rw [List.countP_cons]
    simp [hl0, mkPost]

/-- C6 witness: a double reconciliation of a concrete post into an empty
store, yielding a single row. -/
theorem syncScrapedPostData_idempotent_upsert_witness :
    syncScrapedPostData 1 "inf-1" postD1 (syncScrapedPostData 0 "inf-1" postD1 []) =
      syncScrapedPostData 0 "inf-1" postD1 [] ∧
    (syncScrapedPostData 0 "inf-1" postD1 []).countP
        (fun p => p.platformPostId == postD1.platformPostId) = 1 := by
  exact syncScrapedPostData_idempotent_upsert 0 1 "inf-1" postD1 [] List.Pairwise.nil

/-- Writing a post whose key is absent from the store inserts it in front. -/
theorem syncPostStd_insert (now : Int) (influencerId : String) (d : PostData) (db : DB)
    (h : ∀ p ∈ db.posts, p.platformPostId ≠ d.platformPostId) :
    syncPostStd now influencerId d db =
      ({ db with posts := mkPost now influencerId d :: db.posts }, none) := by
  unfold syncPostStd syncScrapedPostData
  have hf : db.posts.any (fun p => p.platformPostId == d.platformPostId) = false := by
    rw [List.any_eq_false]
    intro p hp
    simpa using h p hp
  simp [hf]

/-- C1: for a posts-type scrape job the handler tolerates all three payload
shapes — a bare post object, a flat array, and an array with nested arrays
— flattening before processing; in particular the payload
`[[postA, postB], postC]` produces exactly three post upserts (postA,
postB and postC), not two, and the job finishes completed. -/
theorem handleWebhook_posts_flattening :
    ∀ (now : Int) (dp : String → Option Int) (job : ScrapJob)
      (fsa fsb fsc : List (String × JSValue)) (infs : List Influencer),
      job.jobType = JobType.posts →
      job.platform = PlatformType.LinkedIn →
      (parsePostData now dp (.obj fsa)).platformPostId ≠
        (parsePostData now dp (.obj fsb)).platformPostId →
      (parsePostData now dp (.obj fsa)).platformPostId ≠
        (parsePostData now dp (.obj fsc)).platformPostId →
      (parsePostData now dp (.obj fsb)).platformPostId ≠
        (parsePostData now dp (.obj fsc)).platformPostId →
      (handleWebhook (syncProfileStd now) (syncPostStd now) now dp job.jobId
          (.obj fsc) ⟨infs, [], [job]⟩).posts =
        [postOf now dp job.influencerId (.obj fsc)] ∧
      (handleWebhook (syncProfileStd now) (syncPostStd now) now dp job.jobId
          (.arr [.obj fsa, .obj fsb]) ⟨infs, [], [job]⟩).posts =
        [postOf now dp job.influencerId (.obj fsb),
         postOf now dp job.influencerId (.obj fsa)] ∧
      (handleWebhook (syncProfileStd now) (syncPostStd now) now dp job.jobId
          (.arr [.arr [.obj fsa, .obj fsb], .obj fsc]) ⟨infs, [], [job]⟩).posts =
        [postOf now dp job.influencerId (.obj fsc),
         postOf now dp job.influencerId (.obj fsb),
         postOf now dp job.influencerId (.obj fsa)] ∧
      ∀ j ∈ (handleWebhook (syncProfileStd now) (syncPostStd now) now dp job.jobId
          (.arr [.arr [.obj fsa, .obj fsb], .obj fsc]) ⟨infs, [], [job]⟩).scrapJobs,
        j.status = JobStatus.completed := by
  intro now dp job fsa fsb fsc infs hjt hplat hab hac hbc
  have hfind : List.find? (fun j => j.jobId == job.jobId) [job] = some job := by
    simp [List.find?]
  have hA0 : syncPostStd now job.influencerId (parsePostData now dp (.obj fsa))
      ⟨infs, [], [job]⟩ =
      (⟨infs, [postOf now dp job.influencerId (.obj fsa)], [job]⟩, none) := by
    simpa [postOf] using syncPostStd_insert now job.influencerId
      (parsePostData now dp (.obj fsa)) ⟨infs, [], [job]⟩ (by intro p hp; simp at hp)
  have hC0 : syncPostStd now job.influencerId (parsePostData now dp (.obj fsc))
      ⟨infs, [], [job]⟩ =
      (⟨infs, [postOf now dp job.influencerId (.obj fsc)], [job]⟩, none) := by
    simpa [postOf] using syncPostStd_insert now job.influencerId
      (parsePostData now dp (.obj fsc)) ⟨infs, [], [job]⟩ (by intro p hp; simp at hp)
  have hB1 : syncPostStd now job.influencerId (parsePostData now dp (.obj fsb))
      ⟨infs, [postOf now dp job.influencerId (.obj fsa)], [job]⟩ =
      (⟨infs, [postOf now dp job.influencerId (.obj fsb),
               postOf now dp job.influencerId (.obj fsa)], [job]⟩, none) := by
    simpa [postOf] using syncPostStd_insert now job.influencerId
      (parsePostData now dp (.obj fsb))
      ⟨infs, [postOf now dp job.influencerId (.obj fsa)], [job]⟩
      (by
        intro p hp
        simp at hp
        subst hp
        simpa [postOf, mkPost] using hab)
  have hC2 : syncPostStd now job.influencerId (parsePostData now dp (.obj fsc))
      ⟨infs, [postOf now dp job.influencerId (.obj fsb),
              postOf now dp job.influencerId (.obj fsa)], [job]⟩ =
      (⟨infs, [postOf now dp job.influencerId (.obj fsc),
               postOf now dp job.influencerId (.obj fsb),
               postOf now dp job.influencerId (.obj fsa)], [job]⟩, none) := by
    simpa [postOf] using syncPostStd_insert now job.influencerId
      (parsePostData now dp (.obj fsc))
      ⟨infs, [postOf now dp job.influencerId (.obj fsb),
              postOf now dp job.influencerId (.obj fsa)], [job]⟩
      (by
        intro p hp
        simp at hp
        rcases hp with hp | hp <;> subst hp
        · simpa [postOf, mkPost] using hbc
        · simpa [postOf, mkPost] using hac)
  refine ⟨?_, ?_, ?_, ?_⟩
  · simp only [handleWebhook, handleWebhookTry, runPostsBranch, hfind, hplat, hjt,
      getScraper, hC0]
  · simp only [handleWebhook, handleWebhookTry, runPostsBranch, runPostsOuter,
      runPostsInner, hfind, hplat, hjt, getScraper, hA0, hB1]
  · simp only [handleWebhook, handleWebhookTry, runPostsBranch, runPostsOuter,
      runPostsInner, hfind, hplat, hjt, getScraper, hA0, hB1, hC2]
  · simp only [handleWebhook, handleWebhookTry, runPostsBranch, runPostsOuter,
      runPostsInner, hfind, hplat, hjt, getScraper, hA0, hB1, hC2, markJob]
    intro j hj
    simp at hj
    subst hj
    rfl

/-- C1 witness: three concrete posts delivered as `[[postA, postB], postC]`
for a concrete posts job produce exactly three stored rows. -/
theorem handleWebhook_posts_flattening_witness :
    (handleWebhook (syncProfileStd 0) (syncPostStd 0) 0 (fun _ => none) "job-1"
        (.arr [.arr [postObjA, postObjB], postObjC]) ⟨[], [], [jobPostsLI]⟩).posts =
      [postOf 0 (fun _ => none) "inf-1" postObjC,
       postOf 0 (fun _ => none) "inf-1" postObjB,
       postOf 0 (fun _ => none) "inf-1" postObjA] := by
  have h := handleWebhook_posts_flattening 0 (fun _ => none) jobPostsLI
    [("post_id", .str "pa"), ("url", .str "https://l.in/pa")]
    [("post_id", .str "pb")] [("post_id", .str "pc")] []
    rfl rfl (by decide) (by decide) (by decide)
  exact h.2.2.1
